import Mathlib

/-!
Verification of the delay-tolerant, energy-aware LLM request broker.

This file shallowly embeds the core of the repository in Lean 4:

* the Request Store backed by the requests table
  (src/queue/request_queue.py), modelled as a list of job rows in
  insertion (rowid) order;
* the status-update, selection and lookup operations of the store;
* the token-budget maps of the two inference drivers
  (src/llm_processor/llama_processor.py, mock_processor.py);
* the hourly battery forecasts of the two power monitors
  (src/power_monitor/tc66_monitor.py, mock_monitor.py);
* the scheduler's estimators, calibration update and enqueue operation
  (src/scheduler/power_aware_scheduler.py).

Python floats are modelled as rationals.  Timestamp columns are stored
as ISO-8601 TEXT and compared lexicographically by SQLite; since that
comparison is order-faithful for ISO-8601 strings, timestamps are
modelled as rationals ordered in the usual way.
-/

namespace DtnLLM

/-- The status column of a job row.  The code only ever writes the four
strings queued, processing, completed, failed. -/
inductive Status where
  | queued
  | processing
  | completed
  | failed
deriving DecidableEq

/-- One row of the requests table
(src/queue/request_queue.py, init_db): id, conversation_id, prompt,
submitted_at, estimated_power, estimated_completion, status, response.
The response column is NULL until some update writes it. -/
structure Job where
  id : String
  conversation_id : String
  prompt : String
  submitted_at : ℚ
  estimated_power : ℚ
  estimated_completion : ℚ
  status : Status
  response : Option String
deriving DecidableEq

/-- The requests table, as the list of its rows in insertion (rowid)
order. -/
abbrev Store := List Job

/-- Python truthiness of the optional response argument of
update_request_status: None and the empty string are falsy, any other
string is truthy. -/
def responseTruthy : Option String → Bool
  | none => false
  | some s => !s.isEmpty

/-- The effect of RequestQueue.update_request_status
(src/queue/request_queue.py lines 122-137) on one row: when the row id
matches, the status column is set; the response column is set as well
exactly when the response argument is truthy.  Non-matching rows are
untouched. -/
def updateRow (request_id : String) (status : Status) (response : Option String)
    (j : Job) : Job :=
  if j.id = request_id then
    if responseTruthy response then
      { j with status := status, response := response }
    else
      { j with status := status }
  else j

/-- RequestQueue.update_request_status (src/queue/request_queue.py
lines 122-137): an unconditional SQL UPDATE of the matching rows.  The
function performs no check of the previous status and reports nothing
back to the caller. -/
def update_request_status (store : Store) (request_id : String) (status : Status)
    (response : Option String) : Store :=
  store.map (updateRow request_id status response)

/-- RequestQueue.get_request (src/queue/request_queue.py lines
139-152): SELECT * FROM requests WHERE id = ?, returning the first
matching row or None. -/
def get_request (store : Store) (request_id : String) : Option Job :=
  store.find? (fun j => j.id == request_id)

/-- RequestQueue.enqueue (src/queue/request_queue.py lines 33-56):
INSERT of a fresh row in queued state with NULL response.  The fresh
uuid and the current instant are inputs of the model. -/
def enqueue (store : Store) (request_id conversation_id prompt : String)
    (now estimated_power estimated_completion : ℚ) : Store :=
  store ++ [{ id := request_id
              conversation_id := conversation_id
              prompt := prompt
              submitted_at := now
              estimated_power := estimated_power
              estimated_completion := estimated_completion
              status := Status.queued
              response := none }]

/-- RequestQueue.get_queue_length (src/queue/request_queue.py lines
175-184): SELECT COUNT of the rows in queued state. -/
def get_queue_length (store : Store) : ℕ :=
  (store.filter (fun j => j.status == Status.queued)).length

/-- The first row of a list attaining the minimal submitted_at, or none
on the empty list.  This models ORDER BY submitted_at ASC LIMIT 1 over
the filtered rows: among rows with equal submitted_at the one earliest
in table order is produced. -/
def selectMin : List Job → Option Job
  | [] => none
  | j :: rest =>
    match selectMin rest with
    | none => some j
    | some k => if k.submitted_at < j.submitted_at then some k else some j

/-- The WHERE clause of RequestQueue.get_next_processable_request
(src/queue/request_queue.py lines 92-110): in immediate mode only
status = queued; otherwise also estimated_power <= available_power and
estimated_completion <= now. -/
def runnable (available_power now : ℚ) (immediate_mode : Bool) (j : Job) : Bool :=
  if immediate_mode then
    j.status == Status.queued
  else
    j.status == Status.queued
      && decide (j.estimated_power ≤ available_power)
      && decide (j.estimated_completion ≤ now)

/-- RequestQueue.get_next_processable_request (src/queue/request_queue.py
lines 58-120): the two SQL queries both read
WHERE ... ORDER BY submitted_at ASC LIMIT 1, with no further ORDER BY
key, so ties on submitted_at fall back to table order. -/
def get_next_processable_request (store : Store) (available_power now : ℚ)
    (immediate_mode : Bool) : Option Job :=
  selectMin (store.filter (runnable available_power now immediate_mode))

/-- RequestQueue.get_queue_position (src/queue/request_queue.py lines
186-204): 1-based position of a row among the queued rows ordered by
submitted_at, or None when the row is not queued.  Ties on submitted_at
again follow table order. -/
def get_queue_position (store : Store) (request_id : String) : Option ℕ :=
  let queued := store.filter (fun j => j.status == Status.queued)
  match (queued.mergeSort (fun a b => decide (a.submitted_at ≤ b.submitted_at))).findIdx?
      (fun j => j.id == request_id) with
  | none => none
  | some i => some (i + 1)

/-- The value returned by PowerAwareScheduler.get_request_info
(src/scheduler/power_aware_scheduler.py lines 337-355): either the
typed error dictionary for an unknown id, or the row itself together
with the queue position when the row is queued. -/
inductive RequestInfo where
  | error (message : String)
  | found (job : Job) (queue_position : Option ℕ)
deriving DecidableEq

/-- PowerAwareScheduler.get_request_info (src/scheduler/
power_aware_scheduler.py lines 337-355): a read-only lookup.  An
unknown id produces the error value; a known queued row is decorated
with its queue position. -/
def get_request_info (store : Store) (request_id : String) : RequestInfo :=
  match get_request store request_id with
  | none => RequestInfo.error "Request not found"
  | some j =>
    if j.status = Status.queued then
      RequestInfo.found j (get_queue_position store request_id)
    else
      RequestInfo.found j none

/-- The effect of system startup on the persisted requests table.
RequestQueue.init_db (src/queue/request_queue.py lines 11-31) executes
only CREATE TABLE IF NOT EXISTS, which never touches existing rows, and
PowerAwareScheduler.start_processing (src/scheduler/
power_aware_scheduler.py lines 169-174) only sets the in-memory flags
and spawns the worker thread.  Neither reads or writes any job row, so
the store effect of startup is the identity. -/
def startup (store : Store) : Store :=
  store

/-- LlamaProcessor.determine_max_tokens (src/llm_processor/
llama_processor.py lines 270-288), as a function of the battery level
reported by the power monitor. -/
def LlamaProcessor.determine_max_tokens (battery_level : ℚ) : ℕ :=
  if battery_level > 80 then 2048
  else if battery_level > 50 then 1024
  else if battery_level > 30 then 512
  else 256

/-- MockLLMProcessor.determine_max_tokens (src/llm_processor/
mock_processor.py lines 110-122), as a function of the battery level
reported by the power monitor.  Note the code has only three tiers. -/
def MockLLMProcessor.determine_max_tokens (battery_level : ℚ) : ℕ :=
  if battery_level > 80 then 2048
  else if battery_level > 50 then 1024
  else 512

/-- One entry of the list returned by predict_future_availability:
hour, solar_output, battery_level, processing_capable. -/
structure ForecastEntry where
  hour : ℕ
  solar_output : ℚ
  battery_level : ℚ
  processing_capable : Bool
deriving DecidableEq

/-- One hour of battery evolution in
TC66PowerMonitor.predict_future_availability (src/power_monitor/
tc66_monitor.py lines 256-274): net power, tapered charge efficiency
when charging, conversion to battery percent, clamping to 0..100. -/
def tc66BatteryStep (base_consumption battery_capacity_wh : ℚ)
    (current_battery solar_estimate : ℚ) : ℚ :=
  let net_power := solar_estimate - base_consumption
  let battery_change :=
    if net_power > 0 then
      let charge_efficiency := 0.85 - (0.2 * current_battery / 100)
      let energy_in := net_power * charge_efficiency
      (energy_in / battery_capacity_wh) * 100
    else
      (net_power / battery_capacity_wh) * 100
  max 0 (min 100 (current_battery + battery_change))

/-- The loop body of TC66PowerMonitor.predict_future_availability
(src/power_monitor/tc66_monitor.py lines 250-283).  The per-hour solar
estimate comes from estimate_solar_output_for_hour, which reads mutable
history state, so it is an input function of the model.  The argument
hour is the loop index, remaining the hours still to forecast. -/
def tc66PredictLoop (solarAt : ℕ → ℚ) (base_consumption battery_capacity_wh : ℚ)
    (current_hour : ℕ) : (hour remaining : ℕ) → (current_battery : ℚ) →
    List ForecastEntry
  | _, 0, _ => []
  | hour, remaining + 1, current_battery =>
    let forecast_hour := (current_hour + hour) % 24
    let solar_estimate := solarAt forecast_hour
    let battery2 := tc66BatteryStep base_consumption battery_capacity_wh
      current_battery solar_estimate
    { hour := forecast_hour
      solar_output := solar_estimate
      battery_level := battery2
      processing_capable :=
        decide (battery2 > 30) && decide (solar_estimate > base_consumption) } ::
      tc66PredictLoop solarAt base_consumption battery_capacity_wh current_hour
        (hour + 1) remaining battery2

/-- TC66PowerMonitor.predict_future_availability (src/power_monitor/
tc66_monitor.py lines 243-283), starting from the monitor's current
battery level. -/
def TC66PowerMonitor.predict_future_availability (solarAt : ℕ → ℚ)
    (base_consumption battery_capacity_wh : ℚ) (current_hour : ℕ)
    (battery_level : ℚ) (hours_ahead : ℕ) : List ForecastEntry :=
  tc66PredictLoop solarAt base_consumption battery_capacity_wh current_hour
    0 hours_ahead battery_level

/-- The battery evolution rule stated by the specification, one hour at
a time: net = solar minus base_consumption; if net > 0 the effective
inflow is net times (0.85 minus 0.2 times battery over 100), otherwise
the change is net itself; the battery-percent change is that quantity
divided by capacity_wh times 100, and the result is clamped to the
interval from 0 to 100.  Written from the words of the specification
for comparison with the code. -/
def specBatteryStep (base_consumption capacity_wh battery solar : ℚ) : ℚ :=
  let net := solar - base_consumption
  let change :=
    if net > 0 then
      net * (85 / 100 - 2 / 10 * battery / 100) / capacity_wh * 100
    else
      net / capacity_wh * 100
  max 0 (min 100 (battery + change))

/-- The forecast demanded by the specification: the battery evolves
hour by hour by specBatteryStep, and each entry records the hour
modulo 24, the solar estimate, the evolved battery and the capability
flag battery > 30 and solar > base_consumption.  Written from the
words of the specification for comparison with the code. -/
def specPredictLoop (solarAt : ℕ → ℚ) (base_consumption capacity_wh : ℚ)
    (current_hour : ℕ) : (hour remaining : ℕ) → (battery : ℚ) →
    List ForecastEntry
  | _, 0, _ => []
  | hour, remaining + 1, battery =>
    let forecast_hour := (current_hour + hour) % 24
    let solar := solarAt forecast_hour
    let battery2 := specBatteryStep base_consumption capacity_wh battery solar
    { hour := forecast_hour
      solar_output := solar
      battery_level := battery2
      processing_capable :=
        decide (battery2 > 30) && decide (solar > base_consumption) } ::
      specPredictLoop solarAt base_consumption capacity_wh current_hour
        (hour + 1) remaining battery2

/-- The loop body of MockPowerMonitor.predict_future_availability
(src/power_monitor/mock_monitor.py lines 70-98).  The simulated solar
estimate involves a random cloud factor, so the per-hour estimate is an
input function of the model; given the estimates, the battery update is
the deterministic rule battery plus net_power times 0.2, clamped. -/
def mockPredictLoop (solarAt : ℕ → ℚ) (base_consumption : ℚ)
    (current_hour : ℕ) : (hour remaining : ℕ) → (battery_level : ℚ) →
    List ForecastEntry
  | _, 0, _ => []
  | hour, remaining + 1, battery_level =>
    let forecast_hour := (current_hour + hour) % 24
    let solar_estimate := solarAt forecast_hour
    let consumption_estimate := base_consumption
    let net_power := solar_estimate - consumption_estimate
    let battery2 := max 0 (min 100 (battery_level + net_power * 0.2))
    { hour := forecast_hour
      solar_output := solar_estimate
      battery_level := battery2
      processing_capable :=
        decide (battery2 > 30) && decide (solar_estimate > base_consumption) } ::
      mockPredictLoop solarAt base_consumption current_hour
        (hour + 1) remaining battery2

/-- MockPowerMonitor.predict_future_availability (src/power_monitor/
mock_monitor.py lines 63-98). -/
def MockPowerMonitor.predict_future_availability (solarAt : ℕ → ℚ)
    (base_consumption : ℚ) (current_hour : ℕ) (battery_level : ℚ)
    (hours_ahead : ℕ) : List ForecastEntry :=
  mockPredictLoop solarAt base_consumption current_hour 0 hours_ahead
    battery_level

/-- The power_calibration_data dictionary of the scheduler
(src/scheduler/power_aware_scheduler.py lines 44-58). -/
structure PowerCalibrationData where
  base_power : ℚ
  token_processing_power : ℚ
  tokens_per_second : ℚ
deriving DecidableEq

/-- The default calibration data created when no file exists
(src/scheduler/power_aware_scheduler.py lines 53-58). -/
def defaultCalibration : PowerCalibrationData :=
  { base_power := 2, token_processing_power := 0.05, tokens_per_second := 10 }

/-- PowerAwareScheduler.estimate_tokens (src/scheduler/
power_aware_scheduler.py lines 68-83): 0 for a falsy (empty) prompt,
otherwise at least 1 and the character count integer-divided by 4. -/
def estimate_tokens (prompt : String) : ℕ :=
  if prompt.isEmpty then 0 else max 1 (prompt.length / 4)

/-- PowerAwareScheduler.estimate_power_requirement (src/scheduler/
power_aware_scheduler.py lines 85-96). -/
def estimate_power_requirement (calib : PowerCalibrationData)
    (token_count : ℕ) : ℚ :=
  calib.base_power + token_count * calib.token_processing_power

/-- PowerAwareScheduler.estimate_processing_time (src/scheduler/
power_aware_scheduler.py lines 98-108): seconds, with a 60 second
fallback when tokens_per_second is not positive. -/
def estimate_processing_time (calib : PowerCalibrationData)
    (token_count : ℕ) : ℚ :=
  if calib.tokens_per_second > 0 then token_count / calib.tokens_per_second
  else 60

/-- The average of the power fields of the two readings taken around a
generation, falling back to base_power when either reading lacks a
power field (src/scheduler/power_aware_scheduler.py lines 307-312). -/
def averagePower (calib : PowerCalibrationData)
    (initial_power final_power : Option ℚ) : ℚ :=
  match initial_power, final_power with
  | some p0, some p1 => (p1 + p0) / 2
  | _, _ => calib.base_power

/-- PowerAwareScheduler.update_power_calibration (src/scheduler/
power_aware_scheduler.py lines 285-335), restricted to its effect on
the calibration data.  The readings are modelled by their optional
power fields; times are seconds.  When the elapsed time is not positive
or the token count is zero the data is unchanged; otherwise both
parameters take a 90/10 weighted average with the observed values. -/
def update_power_calibration (calib : PowerCalibrationData)
    (initial_power final_power : Option ℚ) (initial_time final_time : ℚ)
    (prompt response : String) : PowerCalibrationData :=
  let time_elapsed := final_time - initial_time
  if time_elapsed ≤ 0 then calib
  else
    let average_power := averagePower calib initial_power final_power
    let total_tokens := estimate_tokens prompt + estimate_tokens response
    if total_tokens > 0 then
      let tokens_per_second := (total_tokens : ℚ) / time_elapsed
      let token_processing_power :=
        (average_power - calib.base_power) / (total_tokens : ℚ)
      { calib with
        tokens_per_second :=
          calib.tokens_per_second * 0.9 + tokens_per_second * 0.1
        token_processing_power :=
          calib.token_processing_power * 0.9 + token_processing_power * 0.1 }
    else calib

/-- The forecast scan of PowerAwareScheduler.enqueue_prompt
(src/scheduler/power_aware_scheduler.py lines 140-153): walk the
prediction entries; every capable entry whose solar output covers the
needed power yields the candidate now + i hours + processing time +
queue delay, the earliest candidate is kept, and the scan stops early
as soon as a candidate is found at an index below 6. -/
def scanForecast (power_needed now processing_time queue_delay : ℚ) :
    (i : ℕ) → List ForecastEntry → (best : ℚ) → ℚ
  | _, [], best => best
  | i, p :: rest, best =>
    if p.processing_capable && decide (power_needed ≤ p.solar_output) then
      let candidate := now + i * 3600 + processing_time + queue_delay
      let best2 := if candidate < best then candidate else best
      if i < 6 then best2
      else scanForecast power_needed now processing_time queue_delay
        (i + 1) rest best2
    else scanForecast power_needed now processing_time queue_delay
      (i + 1) rest best

/-- The value and state produced by PowerAwareScheduler.enqueue_prompt:
the fresh request id, the estimated completion instant returned to the
caller, and the new store. -/
structure EnqueueResult where
  request_id : String
  estimated_completion : ℚ
  store : Store
deriving DecidableEq

/-- PowerAwareScheduler.enqueue_prompt (src/scheduler/
power_aware_scheduler.py lines 110-167).  The fresh uuid, the current
instant and the 24-hour forecast are inputs of the model.  The code has
no error path: every prompt, the empty one included, is estimated and
persisted as a queued job. -/
def enqueue_prompt (calib : PowerCalibrationData) (immediate_mode : Bool)
    (power_prediction : List ForecastEntry) (store : Store)
    (request_id conversation_id prompt : String) (now : ℚ) : EnqueueResult :=
  let token_count := estimate_tokens prompt
  let power_needed := estimate_power_requirement calib token_count
  let processing_time := estimate_processing_time calib token_count
  let queue_delay := 60 * (get_queue_length store : ℚ)
  let estimated_completion :=
    if immediate_mode then now + processing_time + queue_delay
    else
      scanForecast power_needed now processing_time queue_delay
        0 power_prediction (now + 24 * 3600)
  { request_id := request_id
    estimated_completion := estimated_completion
    store := enqueue store request_id conversation_id prompt now power_needed
      estimated_completion }

/-- The status written by the worker loop when the driver throws
(src/scheduler/power_aware_scheduler.py line 265): the code calls
update_request_status with status failed and no response argument. -/
def workerFailureTransition (store : Store) (request_id : String) : Store :=
  update_request_status store request_id Status.failed none

/-- The allowed status edges of the specification: queued to
processing, processing to completed, processing to failed.  Written
from the words of the specification for comparison with the code. -/
def allowedTransition : Status → Status → Bool
  | Status.queued, Status.processing => true
  | Status.processing, Status.completed => true
  | Status.processing, Status.failed => true
  | _, _ => false

/-- Comparison of jobs by the specification's selection order:
smallest submitted_at, then smallest id lexicographically, the id
compared as its sequence of characters.  Written from the words of the
specification for comparison with the code. -/
def specJobBefore (a b : Job) : Bool :=
  decide (a.submitted_at < b.submitted_at)
    || (decide (a.submitted_at = b.submitted_at) && decide (a.id.data < b.id.data))

/-- The selection demanded by the specification: the least runnable job
under specJobBefore, total by the id tie-break.  Written from the words
of the specification for comparison with the code. -/
def select_next_spec (store : Store) (available_power now : ℚ)
    (immediate_mode : Bool) : Option Job :=
  (store.filter (runnable available_power now immediate_mode)).foldr
    (fun j best =>
      match best with
      | none => some j
      | some k => if specJobBefore k j then some k else some j)
    none

/-! ### Helper lemmas about the store operations -/

theorem updateRow_id (request_id : String) (status : Status)
    (response : Option String) (j : Job) :
    (updateRow request_id status response j).id = j.id := by
  unfold updateRow
  split
  · split <;> rfl
  · rfl

theorem updateRow_status_of_eq (request_id : String) (status : Status)
    (response : Option String) (j : Job) (h : j.id = request_id) :
    (updateRow request_id status response j).status = status := by
  unfold updateRow
  rw [if_pos h]
  split <;> rfl

theorem updateRow_of_ne (request_id : String) (status : Status)
    (response : Option String) (j : Job) (h : j.id ≠ request_id) :
    updateRow request_id status response j = j := by
  unfold updateRow
  rw [if_neg h]

theorem find?_map_updateRow (s : Store) (request_id : String) (status : Status)
    (response : Option String) :
    (s.map (updateRow request_id status response)).find? (fun j => j.id == request_id) =
      (s.find? (fun j => j.id == request_id)).map (updateRow request_id status response) := by
  induction s with
  | nil => rfl
  | cons j rest ih =>
    by_cases h : j.id = request_id
    · rw [List.map_cons, List.find?_cons_of_pos, List.find?_cons_of_pos]
      · rfl
      · simp [h]
      · simp [updateRow_id, h]
    · rw [List.map_cons, List.find?_cons_of_neg, List.find?_cons_of_neg, ih]
      · simp [h]
      · simp [updateRow_id, h]

theorem get_request_update_request_status (s : Store) (request_id : String)
    (status : Status) (response : Option String) :
    get_request (update_request_status s request_id status response) request_id =
      (get_request s request_id).map (updateRow request_id status response) := by
  unfold get_request update_request_status
  exact find?_map_updateRow s request_id status response

theorem get_request_some_id (s : Store) (request_id : String) (j : Job)
    (h : get_request s request_id = some j) : j.id = request_id := by
  have := List.find?_some h
  simpa using this

/-! ### C1: transition restriction of the status-update operation -/

/-- A concrete queued job used as a counterexample input. -/
def c1Job : Job :=
  { id := "job-a", conversation_id := "conv-1", prompt := "hi",
    submitted_at := 100, estimated_power := 3, estimated_completion := 150,
    status := Status.queued, response := none }

/-- C1: counterexample.  The edge queued to completed is not among the
three allowed transitions, yet update_request_status applies it and
changes the stored record: the operation rejects nothing. -/
theorem C1_counterexample :
    allowedTransition Status.queued Status.completed = false ∧
    update_request_status [c1Job] "job-a" Status.completed none ≠ [c1Job] ∧
    get_request (update_request_status [c1Job] "job-a" Status.completed none)
        "job-a" = some { c1Job with status := Status.completed } := by
  refine ⟨rfl, ?_, ?_⟩ <;> decide

/-- C1 (amended): update_request_status performs no transition check at
all.  For every store, every stored job and every requested status, the
update is accepted unconditionally: the matching record's status column
afterwards equals the requested status, whatever edge that realizes. -/
theorem C1_update_accepts_every_transition (s : Store) (request_id : String)
    (status : Status) (response : Option String) (j : Job)
    (h : get_request s request_id = some j) :
    ∃ j', get_request (update_request_status s request_id status response)
        request_id = some j' ∧ j'.status = status ∧ j'.id = j.id := by
  refine ⟨updateRow request_id status response j, ?_, ?_, updateRow_id ..⟩
  · rw [get_request_update_request_status, h]
    rfl
  · exact updateRow_status_of_eq _ _ _ _ (get_request_some_id s request_id j h)

/-- C1: witness instantiating the amended theorem at a concrete store. -/
theorem C1_update_accepts_every_transition_witness :
    ∃ j', get_request (update_request_status [c1Job] "job-a" Status.completed
        none) "job-a" = some j' ∧ j'.status = Status.completed ∧ j'.id = c1Job.id :=
  C1_update_accepts_every_transition [c1Job] "job-a" Status.completed none c1Job
    (by decide)

/-! ### C9: status-only updates modify only the status column -/

/-- C9: a falsy response argument (absent, or the empty string) makes
update_request_status modify only the status column of the matching
rows: id, conversation_id, prompt, submitted_at, estimated_power,
estimated_completion and any stored response are untouched, and
non-matching rows are untouched entirely. -/
theorem C9_status_only_frame :
    responseTruthy none = false ∧
    responseTruthy (some "") = false ∧
    ∀ (s : Store) (request_id : String) (status : Status) (r : Option String),
      responseTruthy r = false →
      update_request_status s request_id status r =
        s.map (fun j => if j.id = request_id then { j with status := status } else j) := by
  refine ⟨rfl, rfl, ?_⟩
  intro s request_id status r h
  unfold update_request_status updateRow
  simp [h]

/-- C9: witness instantiating the frame theorem with an empty-string
response on a concrete store holding a stored response. -/
theorem C9_status_only_frame_witness :
    update_request_status
        [{ c1Job with status := Status.completed, response := some "kept" }]
        "job-a" Status.failed (some "") =
      [{ c1Job with status := Status.failed, response := some "kept" }] := by
  rw [C9_status_only_frame.2.2 _ _ _ _ (by decide)]
  decide

/-! ### C10: updates for an unknown id are silent no-ops -/

/-- C10: when no stored job carries the requested id, the SQL UPDATE of
update_request_status matches no row: the operation signals nothing to
the caller (it is total and returns no value in the code) and the store
is entirely unchanged. -/
theorem C10_unknown_id_noop (s : Store) (request_id : String) (status : Status)
    (response : Option String) (h : get_request s request_id = none) :
    update_request_status s request_id status response = s := by
  have hall : ∀ j ∈ s, j.id ≠ request_id := by
    intro j hj
    have := List.find?_eq_none.mp h j hj
    simpa using this
  unfold update_request_status
  induction s with
  | nil => rfl
  | cons j rest ih =>
    rw [List.map_cons,
      updateRow_of_ne _ _ _ _ (hall j (List.mem_cons_self j rest)),
      ih (List.find?_eq_none.mpr (by
        intro k hk
        simpa using hall k (List.mem_cons_of_mem j hk)))
      (fun k hk => hall k (List.mem_cons_of_mem j hk))]

/-- C10: witness instantiating the no-op theorem at a concrete store
that does not contain the updated id. -/
theorem C10_unknown_id_noop_witness :
    update_request_status [c1Job] "missing-id" Status.failed (some "boom") =
      [c1Job] :=
  C10_unknown_id_noop [c1Job] "missing-id" Status.failed (some "boom") (by decide)

/-! ### C2: response nullability across the lifecycle -/

/-- A concrete job in processing state with the null response every job
carries until a response is written. -/
def c2Job : Job :=
  { id := "job-b", conversation_id := "conv-2", prompt := "long prompt here",
    submitted_at := 200, estimated_power := 4, estimated_completion := 260,
    status := Status.processing, response := none }

/-- C2: counterexample.  The worker's error handler calls
update_request_status with status failed and no response argument, so a
processing job with a null response becomes a failed job whose response
is still null: no human-readable diagnostic is written, and the job
violates the stated invariant that response is non-null once failed. -/
theorem C2_counterexample :
    get_request (workerFailureTransition [c2Job] "job-b") "job-b" =
      some { c2Job with status := Status.failed } ∧
    ({ c2Job with status := Status.failed }).status = Status.failed ∧
    ({ c2Job with status := Status.failed }).response = none := by
  refine ⟨?_, rfl, rfl⟩
  decide

/-- C2 (amended): response starts null on enqueue and the driver-error
path writes no diagnostic: when the worker catches a driver error it
transitions the job to failed leaving the response column exactly as it
was (null for a job that was queued or processing); only the completed
path with a non-empty generated response makes response non-null. -/
theorem C2_failed_keeps_response_null (s : Store) (request_id : String) (j : Job)
    (h : get_request s request_id = some j) :
    (get_request (workerFailureTransition s request_id) request_id =
        some { j with status := Status.failed } ∧
      ({ j with status := Status.failed }).response = j.response) ∧
    (∀ resp : String, resp.isEmpty = false →
      get_request (update_request_status s request_id Status.completed
          (some resp)) request_id =
        some { j with status := Status.completed, response := some resp }) ∧
    ∀ (s' : Store) (rid cid prompt : String) (now pw ec : ℚ),
      ∃ j', enqueue s' rid cid prompt now pw ec = s' ++ [j'] ∧
        j'.status = Status.queued ∧ j'.response = none := by
  have hid : j.id = request_id := get_request_some_id s request_id j h
  refine ⟨⟨?_, rfl⟩, ?_, ?_⟩
  · unfold workerFailureTransition
    rw [get_request_update_request_status, h]
    unfold updateRow responseTruthy
    simp [hid]
  · intro resp hresp
    rw [get_request_update_request_status, h]
    unfold updateRow responseTruthy
    simp [hid, hresp]
  · intro s' rid cid prompt now pw ec
    exact ⟨_, rfl, rfl, rfl⟩

/-- C2: witness instantiating the amended theorem at a concrete store
holding one processing job. -/
theorem C2_failed_keeps_response_null_witness :
    get_request (workerFailureTransition [c2Job] "job-b") "job-b" =
        some { c2Job with status := Status.failed } ∧
    ({ c2Job with status := Status.failed }).response = c2Job.response :=
  (C2_failed_keeps_response_null [c2Job] "job-b" c2Job (by decide)).1

/-! ### C3: startup sweep of stale processing jobs -/

/-- A concrete stale processing job persisted from before a restart. -/
def c3Job : Job :=
  { id := "job-c", conversation_id := "conv-3", prompt := "interrupted work",
    submitted_at := 300, estimated_power := 5, estimated_completion := 360,
    status := Status.processing, response := none }

/-- C3: counterexample.  Startup runs only CREATE TABLE IF NOT EXISTS
and spawns the worker thread; a job persisted in processing state is
still processing afterwards, not failed with diagnostic interrupted as
the claim requires. -/
theorem C3_counterexample :
    startup [c3Job] = [c3Job] ∧
    (get_request (startup [c3Job]) "job-c").map Job.status =
      some Status.processing ∧
    (get_request (startup [c3Job]) "job-c").map Job.status ≠
      some Status.failed ∧
    (get_request (startup [c3Job]) "job-c").map Job.response ≠
      some (some "interrupted") := by
  refine ⟨rfl, ?_, ?_, ?_⟩ <;> decide

/-- C3 (amended): no recovery sweep exists.  At startup every persisted
job record is left exactly as it was: jobs in processing stay
processing (stale) and jobs in queued stay queued; nothing is
transitioned to failed and no diagnostic is written. -/
theorem C3_startup_changes_nothing (s : Store) :
    startup s = s ∧ ∀ request_id, get_request (startup s) request_id =
      get_request s request_id :=
  ⟨rfl, fun _ => rfl⟩

/-! ### C4: deterministic selection of the next runnable job -/

theorem selectMin_ne_none (j : Job) (rest : List Job) :
    selectMin (j :: rest) ≠ none := by
  simp only [selectMin]
  cases selectMin rest with
  | none => simp
  | some k =>
    by_cases hlt : k.submitted_at < j.submitted_at <;> simp [hlt]

theorem selectMin_eq_none_iff (l : List Job) : selectMin l = none ↔ l = [] := by
  cases l with
  | nil => exact ⟨fun _ => rfl, fun _ => rfl⟩
  | cons j rest =>
    exact ⟨fun h => absurd h (selectMin_ne_none j rest), fun h => by simp at h⟩

theorem selectMin_mem (l : List Job) : ∀ (j : Job), selectMin l = some j →
    j ∈ l := by
  induction l with
  | nil => intro j h; simp [selectMin] at h
  | cons a rest ih =>
    intro j h
    simp only [selectMin] at h
    cases hrest : selectMin rest with
    | none =>
      rw [hrest] at h
      obtain rfl : a = j := Option.some_inj.mp h
      exact List.mem_cons_self a rest
    | some k =>
      rw [hrest] at h
      have h' : (if k.submitted_at < a.submitted_at then some k else some a) =
          some j := h
      by_cases hlt : k.submitted_at < a.submitted_at
      · rw [if_pos hlt] at h'
        obtain rfl : k = j := Option.some_inj.mp h'
        exact List.mem_cons_of_mem a (ih k hrest)
      · rw [if_neg hlt] at h'
        obtain rfl : a = j := Option.some_inj.mp h'
        exact List.mem_cons_self a rest

theorem selectMin_le (l : List Job) : ∀ (j : Job), selectMin l = some j →
    ∀ k ∈ l, j.submitted_at ≤ k.submitted_at := by
  induction l with
  | nil => intro j h; simp [selectMin] at h
  | cons a rest ih =>
    intro j h k hk
    simp only [selectMin] at h
    cases hrest : selectMin rest with
    | none =>
      rw [hrest] at h
      obtain rfl : a = j := Option.some_inj.mp h
      have hnil : rest = [] := (selectMin_eq_none_iff rest).mp hrest
      subst hnil
      rcases List.mem_cons.mp hk with h1 | h1
      · rw [h1]
      · simp at h1
    | some m =>
      rw [hrest] at h
      have h' : (if m.submitted_at < a.submitted_at then some m else some a) =
          some j := h
      by_cases hlt : m.submitted_at < a.submitted_at
      · rw [if_pos hlt] at h'
        obtain rfl : m = j := Option.some_inj.mp h'
        rcases List.mem_cons.mp hk with h1 | h1
        · rw [h1]; exact le_of_lt hlt
        · exact ih m hrest k h1
      · rw [if_neg hlt] at h'
        obtain rfl : a = j := Option.some_inj.mp h'
        rcases List.mem_cons.mp hk with h1 | h1
        · rw [h1]
        · exact le_trans (not_lt.mp hlt) (ih m hrest k h1)

/-- Two concrete queued jobs with equal submitted_at; the first row in
table order carries the lexicographically larger id. -/
def c4JobB : Job :=
  { id := "b", conversation_id := "conv-4", prompt := "first inserted",
    submitted_at := 100, estimated_power := 1, estimated_completion := 100,
    status := Status.queued, response := none }

/-- The second row in table order, same submitted_at, smaller id. -/
def c4JobA : Job :=
  { id := "a", conversation_id := "conv-4", prompt := "second inserted",
    submitted_at := 100, estimated_power := 1, estimated_completion := 100,
    status := Status.queued, response := none }

/-- C4: counterexample.  Both queries order by submitted_at only; with
two runnable jobs tied on submitted_at the first row in table order is
returned even though the other job has the lexicographically smaller
id, so the claimed id tie-break does not exist and the selection
disagrees with the specification's total order. -/
theorem C4_counterexample :
    get_next_processable_request [c4JobB, c4JobA] 10 200 false = some c4JobB ∧
    runnable 10 200 false c4JobA = true ∧
    c4JobA.submitted_at = c4JobB.submitted_at ∧
    c4JobA.id.data < c4JobB.id.data ∧
    get_next_processable_request [c4JobB, c4JobA] 10 200 false ≠
      select_next_spec [c4JobB, c4JobA] 10 200 false := by
  refine ⟨?_, ?_, ?_, ?_, ?_⟩ <;> decide

/-- C4 (amended): in scheduled mode get_next_processable_request
returns a job with status queued, estimated_power at most
available_power and estimated_completion at most now whose submitted_at
is minimal among such jobs, and in immediate mode the same with no
power or time predicate; it returns none exactly when no job satisfies
the predicate.  Ties on submitted_at are broken by table (insertion)
order, not by id, so the choice is a function of the store's row order
rather than of the id column. -/
theorem C4_selection_characterized (s : Store) (available_power now : ℚ)
    (immediate_mode : Bool) :
    (get_next_processable_request s available_power now immediate_mode = none ↔
      s.filter (runnable available_power now immediate_mode) = []) ∧
    ∀ j, get_next_processable_request s available_power now immediate_mode =
        some j →
      (j ∈ s ∧ runnable available_power now immediate_mode j = true) ∧
      ∀ k ∈ s, runnable available_power now immediate_mode k = true →
        j.submitted_at ≤ k.submitted_at := by
  constructor
  · unfold get_next_processable_request
    exact selectMin_eq_none_iff _
  · intro j hj
    unfold get_next_processable_request at hj
    have hmem := selectMin_mem _ _ hj
    constructor
    · exact ⟨(List.mem_filter.mp hmem).1, (List.mem_filter.mp hmem).2⟩
    · intro k hk hrun
      exact selectMin_le _ _ hj k (List.mem_filter.mpr ⟨hk, hrun⟩)

/-- C4: witness instantiating the characterization on the concrete
two-job store. -/
theorem C4_selection_characterized_witness :
    (c4JobB ∈ [c4JobB, c4JobA] ∧ runnable 10 200 false c4JobB = true) ∧
    ∀ k ∈ [c4JobB, c4JobA], runnable 10 200 false k = true →
      c4JobB.submitted_at ≤ k.submitted_at :=
  (C4_selection_characterized [c4JobB, c4JobA] 10 200 false).2 c4JobB (by decide)

/-! ### C5: token budgets of the two inference drivers -/

/-- C5: counterexample.  MockLLMProcessor.determine_max_tokens has only
three tiers: at battery level 10 it returns 512, not the 256 the claim
requires of every driver variant. -/
theorem C5_counterexample :
    MockLLMProcessor.determine_max_tokens 10 = 512 ∧
    MockLLMProcessor.determine_max_tokens 10 ≠ 256 := by
  constructor <;> decide

/-- C5 (amended): LlamaProcessor.determine_max_tokens follows the
four-tier mapping 2048 / 1024 / 512 / 256 of the claim, but
MockLLMProcessor.determine_max_tokens has only three tiers, returning
512 for every battery level of at most 50 and never 256.  Both budgets
are monotonically non-decreasing in the battery level. -/
theorem C5_token_budget_tiers :
    (∀ b : ℚ, (b > 80 → LlamaProcessor.determine_max_tokens b = 2048) ∧
      (b ≤ 80 → b > 50 → LlamaProcessor.determine_max_tokens b = 1024) ∧
      (b ≤ 50 → b > 30 → LlamaProcessor.determine_max_tokens b = 512) ∧
      (b ≤ 30 → LlamaProcessor.determine_max_tokens b = 256)) ∧
    (∀ b : ℚ, (b > 80 → MockLLMProcessor.determine_max_tokens b = 2048) ∧
      (b ≤ 80 → b > 50 → MockLLMProcessor.determine_max_tokens b = 1024) ∧
      (b ≤ 50 → MockLLMProcessor.determine_max_tokens b = 512)) ∧
    (∀ b₁ b₂ : ℚ, b₁ ≤ b₂ →
      LlamaProcessor.determine_max_tokens b₁ ≤
        LlamaProcessor.determine_max_tokens b₂) ∧
    (∀ b₁ b₂ : ℚ, b₁ ≤ b₂ →
      MockLLMProcessor.determine_max_tokens b₁ ≤
        MockLLMProcessor.determine_max_tokens b₂) := by
  refine ⟨fun b => ⟨?_, ?_, ?_, ?_⟩, fun b => ⟨?_, ?_, ?_⟩, ?_, ?_⟩
  · intro h
    unfold LlamaProcessor.determine_max_tokens
    rw [if_pos h]
  · intro h1 h2
    unfold LlamaProcessor.determine_max_tokens
    rw [if_neg (by linarith), if_pos h2]
  · intro h1 h2
    unfold LlamaProcessor.determine_max_tokens
    rw [if_neg (by linarith), if_neg (by linarith), if_pos h2]
  · intro h
    unfold LlamaProcessor.determine_max_tokens
    rw [if_neg (by linarith), if_neg (by linarith), if_neg (by linarith)]
  · intro h
    unfold MockLLMProcessor.determine_max_tokens
    rw [if_pos h]
  · intro h1 h2
    unfold MockLLMProcessor.determine_max_tokens
    rw [if_neg (by linarith), if_pos h2]
  · intro h1
    unfold MockLLMProcessor.determine_max_tokens
    rw [if_neg (by linarith), if_neg (by linarith)]
  · intro b₁ b₂ h
    unfold LlamaProcessor.determine_max_tokens
    split_ifs <;> first | (exfalso; linarith) | norm_num
  · intro b₁ b₂ h
    unfold MockLLMProcessor.determine_max_tokens
    split_ifs <;> first | (exfalso; linarith) | norm_num

/-- C5: witness evaluating both tier maps at concrete battery levels
through the amended theorem. -/
theorem C5_token_budget_tiers_witness :
    LlamaProcessor.determine_max_tokens 90 = 2048 ∧
    LlamaProcessor.determine_max_tokens 20 = 256 ∧
    MockLLMProcessor.determine_max_tokens 20 = 512 ∧
    LlamaProcessor.determine_max_tokens 40 ≤
      LlamaProcessor.determine_max_tokens 60 :=
  ⟨(C5_token_budget_tiers.1 90).1 (by norm_num),
   (C5_token_budget_tiers.1 20).2.2.2 (by norm_num),
   (C5_token_budget_tiers.2.1 20).2.2 (by norm_num),
   C5_token_budget_tiers.2.2.1 40 60 (by norm_num)⟩

/-! ### C6: battery evolution of the two forecast implementations -/

theorem tc66BatteryStep_eq_spec (base_consumption battery_capacity_wh b s : ℚ) :
    tc66BatteryStep base_consumption battery_capacity_wh b s =
      specBatteryStep base_consumption battery_capacity_wh b s := by
  simp only [tc66BatteryStep, specBatteryStep]
  have h85 : (0.85 : ℚ) = 85 / 100 := by norm_num
  have h02 : (0.2 : ℚ) = 2 / 10 := by norm_num
  rw [h85, h02]

theorem tc66PredictLoop_eq_spec (solarAt : ℕ → ℚ)
    (base_consumption battery_capacity_wh : ℚ) (current_hour : ℕ) :
    ∀ (remaining hour : ℕ) (b : ℚ),
      tc66PredictLoop solarAt base_consumption battery_capacity_wh current_hour
          hour remaining b =
        specPredictLoop solarAt base_consumption battery_capacity_wh current_hour
          hour remaining b := by
  intro remaining
  induction remaining with
  | zero => intro hour b; rfl
  | succ n ih =>
    intro hour b
    simp only [tc66PredictLoop, specPredictLoop, tc66BatteryStep_eq_spec]
    rw [ih]

/-- C6: counterexample.  With a constant 12 W solar estimate, 2 W base
consumption, a 37 Wh battery and battery level 75, the specification's
formula yields 75 + 700/37 (about 93.9) after one hour, but the mock
monitor's forecast yields 77: it updates the battery by net times 0.2
with no taper and no capacity scaling. -/
theorem C6_counterexample :
    (MockPowerMonitor.predict_future_availability (fun _ => 12) 2 0 75 1).map
        ForecastEntry.battery_level = [77] ∧
    (specPredictLoop (fun _ => 12) 2 37 0 0 1 75).map
        ForecastEntry.battery_level = [75 + 700 / 37] ∧
    (77 : ℚ) ≠ 75 + 700 / 37 := by
  refine ⟨?_, ?_, by norm_num⟩
  · simp only [MockPowerMonitor.predict_future_availability, mockPredictLoop,
      List.map_cons, List.map_nil]
    norm_num [min_def, max_def]
  · simp only [specPredictLoop, specBatteryStep, List.map_cons, List.map_nil]
    norm_num [min_def, max_def]

/-- C6 (amended): only the hardware-backed TC66 monitor's forecast
follows the claimed hour-by-hour evolution (net = solar minus
base_consumption; tapered inflow net times (0.85 minus 0.2 times
battery over 100) when net > 0, net itself otherwise; divided by
capacity_wh, times 100, clamped to 0..100).  The mock monitor instead
adds net times 0.2 to the battery percentage directly, clamped, with no
taper and no capacity scaling, so the two variants do not satisfy the
same forecast contract. -/
theorem C6_forecast_formula :
    (∀ (solarAt : ℕ → ℚ) (base_consumption battery_capacity_wh : ℚ)
      (current_hour : ℕ) (battery : ℚ) (hours_ahead : ℕ),
      TC66PowerMonitor.predict_future_availability solarAt base_consumption
          battery_capacity_wh current_hour battery hours_ahead =
        specPredictLoop solarAt base_consumption battery_capacity_wh
          current_hour 0 hours_ahead battery) ∧
    (∀ (solarAt : ℕ → ℚ) (base_consumption : ℚ) (current_hour : ℕ)
      (battery : ℚ) (n : ℕ),
      (MockPowerMonitor.predict_future_availability solarAt base_consumption
          current_hour battery (n + 1)).map ForecastEntry.battery_level =
        max 0 (min 100 (battery +
            (solarAt (current_hour % 24) - base_consumption) * (2 / 10))) ::
          (mockPredictLoop solarAt base_consumption current_hour 1 n
            (max 0 (min 100 (battery +
              (solarAt (current_hour % 24) - base_consumption) * (2 / 10))))).map
            ForecastEntry.battery_level) := by
  constructor
  · intro solarAt base_consumption battery_capacity_wh current_hour battery
      hours_ahead
    unfold TC66PowerMonitor.predict_future_availability
    exact tc66PredictLoop_eq_spec solarAt base_consumption battery_capacity_wh
      current_hour hours_ahead 0 battery
  · intro solarAt base_consumption current_hour battery n
    unfold MockPowerMonitor.predict_future_availability
    simp only [mockPredictLoop, Nat.add_zero, List.map_cons]
    norm_num

/-! ### C7: positivity of the calibration parameters across updates -/

/-- C7: counterexample.  Starting from the default calibration data
(both parameters positive), an update with non-negative observed power
readings of 0 W around a 1 second generation of 2 tokens drives
token_processing_power to minus 0.055: the observed average power lies
below base_power, so the blended value goes negative. -/
theorem C7_counterexample :
    (0 : ℚ) ≤ 0 ∧ (0 : ℚ) < 1 - 0 ∧
    0 < defaultCalibration.tokens_per_second ∧
    0 < defaultCalibration.token_processing_power ∧
    (update_power_calibration defaultCalibration (some 0) (some 0) 0 1
        "aaaa" "bbbb").token_processing_power < 0 ∧
    0 < (update_power_calibration defaultCalibration (some 0) (some 0) 0 1
        "aaaa" "bbbb").tokens_per_second := by
  have ha : estimate_tokens "aaaa" = 1 := by decide
  have hb : estimate_tokens "bbbb" = 1 := by decide
  refine ⟨le_refl 0, by norm_num, by norm_num [defaultCalibration],
    by norm_num [defaultCalibration], ?_, ?_⟩ <;>
    norm_num [update_power_calibration, averagePower, ha, hb,
      defaultCalibration]

/-- C7 (amended): under positive previous values, tokens_per_second
stays positive after every calibration update, whatever the
observations; token_processing_power stays positive provided the
observed average power is at least base_power.  When the average power
is below base_power (possible even with non-negative readings) it can
become non-positive, as the counterexample shows. -/
theorem C7_calibration_positivity (calib : PowerCalibrationData)
    (initial_power final_power : Option ℚ) (initial_time final_time : ℚ)
    (prompt response : String)
    (htps : 0 < calib.tokens_per_second)
    (htpp : 0 < calib.token_processing_power) :
    0 < (update_power_calibration calib initial_power final_power initial_time
        final_time prompt response).tokens_per_second ∧
    (calib.base_power ≤ averagePower calib initial_power final_power →
      0 < (update_power_calibration calib initial_power final_power initial_time
          final_time prompt response).token_processing_power) := by
  unfold update_power_calibration
  by_cases ht : final_time - initial_time ≤ 0
  · rw [if_pos ht]
    exact ⟨htps, fun _ => htpp⟩
  · rw [if_neg ht]
    by_cases htok : estimate_tokens prompt + estimate_tokens response > 0
    · rw [if_pos htok]
      have hdt : 0 < final_time - initial_time := lt_of_not_ge ht
      have htokq : (0 : ℚ) < (estimate_tokens prompt + estimate_tokens response : ℕ) := by
        exact_mod_cast htok
      constructor
      · simp only
        have hobs : 0 < ((estimate_tokens prompt + estimate_tokens response : ℕ) : ℚ) /
            (final_time - initial_time) := div_pos htokq hdt
        nlinarith
      · intro havg
        simp only
        have hobs : 0 ≤ (averagePower calib initial_power final_power -
            calib.base_power) / ((estimate_tokens prompt + estimate_tokens response : ℕ) : ℚ) :=
          div_nonneg (by linarith) (le_of_lt htokq)
        nlinarith
    · rw [if_neg htok]
      exact ⟨htps, fun _ => htpp⟩

/-- C7: witness instantiating the amended theorem at the default
calibration with 5 W readings around a 1 second generation. -/
theorem C7_calibration_positivity_witness :
    0 < (update_power_calibration defaultCalibration (some 5) (some 5) 0 1
        "aaaa" "bbbb").tokens_per_second ∧
    0 < (update_power_calibration defaultCalibration (some 5) (some 5) 0 1
        "aaaa" "bbbb").token_processing_power :=
  ⟨(C7_calibration_positivity defaultCalibration (some 5) (some 5) 0 1
      "aaaa" "bbbb" (by norm_num [defaultCalibration])
      (by norm_num [defaultCalibration])).1,
   (C7_calibration_positivity defaultCalibration (some 5) (some 5) 0 1
      "aaaa" "bbbb" (by norm_num [defaultCalibration])
      (by norm_num [defaultCalibration])).2
     (by norm_num [defaultCalibration, averagePower])⟩

/-! ### C8: producer error handling -/

/-- C8: counterexample.  Enqueueing the empty prompt on an empty store
raises no error and persists a queued job: token estimate 0, estimated
power equal to the default base_power of 2 W.  The claim that an empty
prompt surfaces a typed error and persists no job is false. -/
theorem C8_counterexample :
    (enqueue_prompt defaultCalibration true [] [] "rid-1" "conv-1" "" 0).store =
      [{ id := "rid-1", conversation_id := "conv-1", prompt := "",
         submitted_at := 0, estimated_power := 2, estimated_completion := 0,
         status := Status.queued, response := none }] ∧
    (enqueue_prompt defaultCalibration true [] [] "rid-1" "conv-1" "" 0).store ≠
      [] := by
  have h0 : estimate_tokens "" = 0 := by decide
  constructor
  · simp only [enqueue_prompt, enqueue, h0, get_queue_length]
    norm_num [estimate_power_requirement, estimate_processing_time,
      defaultCalibration]
  · simp [enqueue_prompt, enqueue]

/-- C8 (amended): querying an unknown job id does return the typed
error value without touching any state, but an empty prompt is not
rejected: enqueue_prompt estimates it at 0 tokens and persists a queued
job with estimated_power equal to base_power, surfacing no error to the
caller. -/
theorem C8_producer_paths (s : Store) (request_id : String) :
    (get_request s request_id = none →
      get_request_info s request_id = RequestInfo.error "Request not found") ∧
    ∀ (calib : PowerCalibrationData) (immediate_mode : Bool)
      (power_prediction : List ForecastEntry) (conversation_id : String)
      (now : ℚ),
      ∃ ec, (enqueue_prompt calib immediate_mode power_prediction s request_id
          conversation_id "" now).store =
        s ++ [{ id := request_id, conversation_id := conversation_id,
                prompt := "", submitted_at := now,
                estimated_power := calib.base_power,
                estimated_completion := ec, status := Status.queued,
                response := none }] := by
  constructor
  · intro h
    unfold get_request_info
    rw [h]
  · intro calib immediate_mode power_prediction conversation_id now
    have h0 : estimate_tokens "" = 0 := by decide
    have hp : estimate_power_requirement calib (estimate_tokens "") =
        calib.base_power := by
      simp [estimate_power_requirement, h0]
    simp only [enqueue_prompt, enqueue]
    rw [hp]
    exact ⟨_, rfl⟩

/-- C8: witness instantiating both producer paths concretely: the
lookup of an id absent from a one-job store, and the enqueue of the
empty prompt on that store. -/
theorem C8_producer_paths_witness :
    get_request_info [c1Job] "missing-id" =
      RequestInfo.error "Request not found" ∧
    ∃ ec, (enqueue_prompt defaultCalibration true [] [c1Job] "missing-id"
        "conv-9" "" 0).store =
      [c1Job] ++ [{ id := "missing-id", conversation_id := "conv-9",
                    prompt := "", submitted_at := 0,
                    estimated_power := defaultCalibration.base_power,
                    estimated_completion := ec, status := Status.queued,
                    response := none }] :=
  ⟨(C8_producer_paths [c1Job] "missing-id").1 (by decide),
   (C8_producer_paths [c1Job] "missing-id").2 defaultCalibration true []
     "conv-9" 0⟩

end DtnLLM









